import Mathlib

/-!
Shallow embedding of the Neutron 2D game engine
(`src/Neutron/Neutron.ts`, the second `export namespace Neutron` block,
which is the active revision) and verification of its specification
claims.

Numbers (TypeScript `number`) are modelled as rationals `ℚ`;
`Number(x.toFixed(1))` is modelled as rounding to the nearest multiple
of `1/10`, ties away from zero.  Object reference identity (`!==`,
`Array.includes`) is modelled by a `key : ℕ` field: distinct live
objects carry distinct keys.  Methods are modelled as pure functions
taking the object state (and, where the method reads the global `Game`
registry, the registry value) and returning the new state.
-/

namespace Neutron

/-- `Number(x.toFixed(1))`: round to one decimal place, ties away from
zero (JavaScript `toFixed` semantics). -/
def round1 (q : ℚ) : ℚ :=
  if 0 ≤ q then ((⌊q * 10 + 1 / 2⌋ : ℤ) : ℚ) / 10
  else -(((⌊(-q) * 10 + 1 / 2⌋ : ℤ) : ℚ) / 10)

/-- The axis-aligned bounding box of a sprite-like object: `x`,`y` is
the top-left corner (`Sprite` fields `x`, `y`, `width`, `height`). -/
structure Box where
  x : ℚ
  y : ℚ
  width : ℚ
  height : ℚ
  deriving DecidableEq

/-- `Collision.touching(other)` (`Neutron.ts` lines 3916–3923): strict
AABB overlap test between `this.me` and `other`. -/
def touching (me other : Box) : Bool :=
  (me.x < other.x + other.width) &&
  (me.x + me.width > other.x) &&
  (me.y < other.y + other.height) &&
  (me.y + me.height > other.y)

/-! ### Platformer

A registry entry as seen by the `Platformer` methods: its box, its
identity key and whether its runtime class is `Platformer`
(`sprite instanceof Platformer`). -/

structure Spr where
  key : ℕ
  x : ℚ
  y : ℚ
  width : ℚ
  height : ℚ
  isPlat : Bool
  deriving DecidableEq

def Spr.box (p : Spr) : Box := ⟨p.x, p.y, p.width, p.height⟩

/-- The mutable state of a `Platformer` object (`Neutron.ts` lines
4260–4312): geometry inherited from `Sprite` plus the velocity and
gravity fields.  `vxSpeed`/`vySpeed` are never read by the methods
verified here and are omitted. -/
structure PlatSt where
  key : ℕ
  x : ℚ
  y : ℚ
  width : ℚ
  height : ℚ
  vx : ℚ
  vy : ℚ
  maxVX : Option ℚ
  maxVY : Option ℚ
  gravityAcc : ℚ
  hasPlatformerBelow : Bool
  checkAllPlatformers : Bool
  deriving DecidableEq

def PlatSt.box (s : PlatSt) : Box := ⟨s.x, s.y, s.width, s.height⟩

/-- `Sprite.setY` (plain field write). -/
def setY (v : ℚ) (s : PlatSt) : PlatSt := { s with y := v }

/-- `Platformer.setVX` (lines 4474–4480): store, round to one decimal
place, then clamp symmetrically when `maxVX` is non-null. -/
def setVX (v : ℚ) (s : PlatSt) : PlatSt :=
  let vx1 := round1 v
  let vx2 :=
    match s.maxVX with
    | some m => if vx1 > m then m else if vx1 < -m then -m else vx1
    | none => vx1
  { s with vx := vx2 }

/-- `Platformer.setVY` (lines 4527–4533): same as `setVX` on the y
axis. -/
def setVY (v : ℚ) (s : PlatSt) : PlatSt :=
  let vy1 := round1 v
  let vy2 :=
    match s.maxVY with
    | some m => if vy1 > m then m else if vy1 < -m then -m else vy1
    | none => vy1
  { s with vy := vy2 }

/-- The body of the `forEach` inside `Platformer.doGravity` (lines
4326–4341), for one candidate platformer `p`. -/
def doGravityStep (s : PlatSt) (p : Spr) : PlatSt :=
  if touching s.box p.box && s.key != p.key then
    let s1 :=
      if s.vy < 0 then setY (p.y + p.height) s
      else { setY (p.y - s.height) s with hasPlatformerBelow := true }
    let s2 := if touching s1.box p.box then setY (s1.y + 1 / 10) s1 else s1
    setVY 0 s2
  else s

/-- `Platformer.doGravity()` (lines 4317–4346).  `registry` is the
current list of live sprites restricted to the data the method reads;
`cache` is `this.platformersToCheckCollision`. -/
def doGravity (self : PlatSt) (registry : List Spr) (cache : List Spr) : PlatSt :=
  let candidates :=
    if self.checkAllPlatformers then registry.filter (fun p => p.isPlat) else cache
  let s0 : PlatSt := { self with hasPlatformerBelow := false }
  let s1 := setY (s0.y + s0.vy) s0
  let s2 := candidates.foldl doGravityStep s1
  if !s2.hasPlatformerBelow then setVY (s2.vy + s2.gravityAcc) s2 else s2

/-- The per-candidate rule exactly as the claim words it: for a
candidate `p` other than self that is now touching self, snap according
to the sign of `vy` (setting `hasPlatformerBelow` on the downward
branch), nudge by `0.1` if still touching, and set `vy` to `0` (writes
to `vy` go through `setVY`, as everywhere in the class). -/
def doGravityClaimStep (s : PlatSt) (p : Spr) : PlatSt :=
  if s.key ≠ p.key ∧ touching s.box p.box = true then
    let snapped :=
      if s.vy < 0 then { s with y := p.y + p.height }
      else { s with y := p.y - s.height, hasPlatformerBelow := true }
    let nudged :=
      if touching snapped.box p.box = true then { snapped with y := snapped.y + 1 / 10 }
      else snapped
    setVY 0 nudged
  else s

/-- The claim's candidate loop: process every candidate in order. -/
def doGravityClaimLoop : PlatSt → List Spr → PlatSt
  | s, [] => s
  | s, p :: ps => doGravityClaimLoop (doGravityClaimStep s p) ps

/-- `doGravity` exactly as the claim describes it, step by step:
refresh the candidate set when check-all mode is active; reset
`hasPlatformerBelow`; add `vy` to `y`; run the candidate loop; finally
add `gravityAcc` to `vy` only when not grounded (and do not re-zero
`vy` when grounded). -/
def doGravityClaim (self : PlatSt) (registry cache : List Spr) : PlatSt :=
  let candidates :=
    if self.checkAllPlatformers then registry.filter (fun p => p.isPlat) else cache
  let s :=
    doGravityClaimLoop
      { self with hasPlatformerBelow := false, y := self.y + self.vy } candidates
  if s.hasPlatformerBelow then s else setVY (s.vy + s.gravityAcc) s

/-- `Collision.getSpriteBelowSelf()` (lines 3944–3955): move self down
one unit, collect every *sprite* (of any runtime class) touching it and
distinct from it, move back.  The move is restored, so the probe is
modelled as a pure function of the original state. -/
def getSpriteBelowSelf (self : PlatSt) (registry : List Spr) : List Spr :=
  let probe : Box := { self.box with y := self.box.y + 1 }
  registry.filter (fun sp => touching probe sp.box && self.key != sp.key)

/-- `Platformer.doJump(jumpHeight)` (lines 4398–4402). -/
def doJump (jumpHeight : ℚ) (self : PlatSt) (registry : List Spr) : PlatSt :=
  if (getSpriteBelowSelf self registry).length > 0 then setVY (-jumpHeight) self
  else self

/-- `Platformer.addFrictionX(friction)` (lines 4448–4451). -/
def addFrictionX (friction : ℚ) (s : PlatSt) : PlatSt :=
  let s1 := setVX (s.vx * friction) s
  if |s1.vx| < 3 / 10 then setVX 0 s1 else s1

/-! Concrete states used by the jump and friction claims. -/

/-- A platformer resting at the origin (all velocity fields default). -/
def jumpSelf : PlatSt :=
  { key := 0, x := 0, y := 0, width := 10, height := 10, vx := 0, vy := 0,
    maxVX := none, maxVY := none, gravityAcc := 1 / 5,
    hasPlatformerBelow := true, checkAllPlatformers := true }

/-- A registry holding `jumpSelf` and one plain (non-`Platformer`)
sprite overlapping the one-unit-below probe. -/
def jumpWorld : List Spr :=
  [⟨0, 0, 0, 10, 10, true⟩, ⟨1, 0, 21 / 2, 10, 10, false⟩]

/-- A registry holding `jumpSelf` alone: nothing below it. -/
def jumpWorldAir : List Spr := [⟨0, 0, 0, 10, 10, true⟩]

/-- A platformer whose stored `vx` (10) exceeds its later-set `maxVX`
(5) — reachable because `setMaxVX` does not retroactively clamp. -/
def fricState : PlatSt :=
  { key := 0, x := 0, y := 0, width := 10, height := 10, vx := 10, vy := 0,
    maxVX := some 5, maxVY := none, gravityAcc := 1 / 5,
    hasPlatformerBelow := false, checkAllPlatformers := true }

/-- The claim's concrete friction state: `vx = 0.25`, no clamp. -/
def fricSnapState : PlatSt :=
  { key := 0, x := 0, y := 0, width := 10, height := 10, vx := 1 / 4, vy := 0,
    maxVX := none, maxVY := none, gravityAcc := 1 / 5,
    hasPlatformerBelow := false, checkAllPlatformers := true }

/-! ### Game registry -/

/-- The runtime class of a registered sprite (`Platformer extends
Sprite`). -/
inductive SKind where
  | sprite
  | platformer
  deriving DecidableEq

/-- A sprite as stored in `Game.sprites`, restricted to the fields the
registry operations read: identity key, `id`, `stageLevel` and runtime
class. -/
structure SpriteRec where
  key : ℕ
  id : String
  stageLevel : ℚ
  kind : SKind
  deriving DecidableEq

/-- `sprite instanceof T` for the two classes of the model: every
record is an instance of `Sprite`; only `platformer`-kind records are
instances of `Platformer`. -/
def instOf (s : SpriteRec) (t : SKind) : Bool :=
  match t with
  | SKind.sprite => true
  | SKind.platformer => s.kind = SKind.platformer

/-- The sort key of `Game.sortSprites`: ascending `stageLevel`. -/
def stageLE (a b : SpriteRec) : Prop := a.stageLevel ≤ b.stageLevel

instance : DecidableRel stageLE := fun a b =>
  inferInstanceAs (Decidable (a.stageLevel ≤ b.stageLevel))

instance : IsTotal SpriteRec stageLE := ⟨fun a b => le_total a.stageLevel b.stageLevel⟩

instance : IsTrans SpriteRec stageLE := ⟨fun _ _ _ => le_trans⟩

/-- `Game.sortSprites` (lines 3059–3062): `Array.prototype.sort` with
comparator `a.getStageLevel() - b.getStageLevel()`; ECMAScript sort is
stable, so any stable sort by `stageLevel` models it — we use insertion
sort. -/
def sortSprites (reg : List SpriteRec) : List SpriteRec :=
  List.insertionSort stageLE reg

/-- `if (!this.sprites.includes(sprite)) this.sprites.push(sprite)`. -/
def pushNew (reg : List SpriteRec) (s : SpriteRec) : List SpriteRec :=
  if s ∈ reg then reg else reg ++ [s]

/-- `Game.addNewSprite` (lines 3135–3150), array argument: push each
sprite not already present, then sort once. -/
def addNewSprite (ss : List SpriteRec) (reg : List SpriteRec) : List SpriteRec :=
  sortSprites (ss.foldl pushNew reg)

/-- `Game.addNewSprite`, single-sprite argument. -/
def addNewSpriteSingle (s : SpriteRec) (reg : List SpriteRec) : List SpriteRec :=
  sortSprites (pushNew reg s)

/-- `Game.getSpriteById` (lines 3174–3178):
`this.sprites.filter(...)[0]`, `undefined` when there is no match. -/
def getSpriteById (id : String) (reg : List SpriteRec) : Option SpriteRec :=
  (reg.filter (fun s => s.id = id)).head?

/-- `Game.deleteSpriteById` (lines 3217–3218). -/
def deleteSpriteById (id : String) (reg : List SpriteRec) : List SpriteRec :=
  reg.filter (fun s => s.id ≠ id)

/-- `Game.deleteSpritesByType` (lines 3235–3236), exactly as written in
the source: `this.sprites = this.sprites.filter((sprite) => sprite!
instanceof type)` — the filter *keeps* the sprites that are instances
of `type`. -/
def deleteSpritesByType (t : SKind) (reg : List SpriteRec) : List SpriteRec :=
  reg.filter (fun s => instOf s t)

/-- What the claim says `deleteSpritesByType` does: remove exactly the
sprites of kind `T`, retain the rest. -/
def deleteSpritesByTypeClaim (t : SKind) (reg : List SpriteRec) : List SpriteRec :=
  reg.filter (fun s => !instOf s t)

/-- The `Sprite` constructor (lines 3451–3471) at registry level: throw
when a sprite with the same `id` is currently registered, otherwise
produce the new object.  The constructor never writes to the registry,
so the returned registry is the input registry. -/
def mkSprite (key : ℕ) (id : String) (stageLevel : ℚ) (kind : SKind)
    (reg : List SpriteRec) : Except String SpriteRec × List SpriteRec :=
  if (getSpriteById id reg).isSome then
    (Except.error ("Sprite " ++ id ++ " already exists!"), reg)
  else
    (Except.ok { key := key, id := id, stageLevel := stageLevel, kind := kind }, reg)

/-- `Sprite.setId` (lines 3551–3557). -/
def setId (newId : String) (s : SpriteRec) (reg : List SpriteRec) :
    Except String SpriteRec :=
  if (getSpriteById newId reg).isSome then
    Except.error ("Sprite " ++ newId ++ " already exists!")
  else Except.ok { s with id := newId }

/-- `n` successive constructions of a `Sprite` with the same `id`,
threading the registry returned by each construction (which the
constructor leaves untouched); `true` iff every construction
succeeds. -/
def constructMany (n : ℕ) (key : ℕ) (id : String) (stageLevel : ℚ) (kind : SKind)
    (reg : List SpriteRec) : Bool :=
  match n with
  | 0 => true
  | Nat.succ m =>
    match mkSprite key id stageLevel kind reg with
    | (Except.ok _, reg') => constructMany m key id stageLevel kind reg'
    | (Except.error _, _) => false

/-- Registry with one platformer-kind and one plain sprite, the failing
input for `deleteSpritesByType`. -/
def typedReg : List SpriteRec :=
  [⟨0, "p", 0, SKind.platformer⟩, ⟨1, "q", 0, SKind.sprite⟩]

/-- A registered sprite with id `"player"`. -/
def playerRec : SpriteRec := ⟨0, "player", 0, SKind.sprite⟩

/-! ### Effects -/

/-- `Effects` (lines 3680–3760), restricted to the fields independent
of the eclipse-angle geometry. -/
structure Effects where
  hidden : Bool
  transparency : ℚ
  rotation : ℚ
  isEclipse : Bool
  deriving DecidableEq

/-- `Effects.setTransparency` (lines 3751–3753): a bare field write. -/
def setTransparency (v : ℚ) (e : Effects) : Effects :=
  { e with transparency := v }

/-! ### Engine loop -/

/-- `Particle` state (lines 3990–4050), kinematic fields. -/
structure Particle where
  x : ℚ
  y : ℚ
  vx : ℚ
  vy : ℚ
  maxVX : Option ℚ
  maxVY : Option ℚ
  deriving DecidableEq

/-- `Particle.update()` (lines 4053–4072): integrate position, then
clamp each velocity into its optional symmetric bound. -/
def particleUpdate (p : Particle) : Particle :=
  let p1 := { p with x := p.x + p.vx, y := p.y + p.vy }
  let vx' :=
    match p1.maxVX with
    | some m => if p1.vx > m then m else if p1.vx < -m then -m else p1.vx
    | none => p1.vx
  let vy' :=
    match p1.maxVY with
    | some m => if p1.vy > m then m else if p1.vy < -m then -m else p1.vy
    | none => p1.vy
  { p1 with vx := vx', vy := vy' }

/-- The world visible to one engine simulation step: the sprite list
(abstract element type `σ`, updated by the host-defined per-sprite
`update` hooks), the particle list, the camera, the camera-follow
target (index of the followed sprite in `sprites`; `none` models a null
`toFollow`) and the mouse state. -/
structure EngineWorld (σ : Type) where
  sprites : List σ
  particles : List Particle
  cameraX : ℚ
  cameraY : ℚ
  toFollow : Option ℕ
  isMouseDown : Bool
  hasMouseEvent : Bool

/-- The sprite phase of the `update` closure:
`getGame().getSprites().forEach((sprite) => sprite.update())`. -/
def spritesPhase (f : σ → σ) (w : EngineWorld σ) : EngineWorld σ :=
  { w with sprites := w.sprites.map f }

/-- The camera-follow phase: when `toFollow` is non-null, recenter the
camera on it (`Camera.setX`/`setY` round to one decimal place). -/
def cameraFollowPhase (getX getY : σ → ℚ) (renderW renderH : ℚ)
    (w : EngineWorld σ) : EngineWorld σ :=
  match w.toFollow with
  | none => w
  | some i =>
    match w.sprites.get? i with
    | none => w
    | some sp =>
      { w with cameraX := round1 (getX sp - renderW / 2),
               cameraY := round1 (getY sp - renderH / 2) }

/-- The mouse phase: `if (events.isMouseDown && events.mouseEvent)
events.whileMouseDown(events.mouseEvent)`. -/
def mousePhase (wm : EngineWorld σ → EngineWorld σ) (w : EngineWorld σ) :
    EngineWorld σ :=
  if w.isMouseDown && w.hasMouseEvent then wm w else w

/-- The `update` closure installed by `Engine.init` (lines 1603–1620),
written exactly in the source's statement order: update every sprite,
reposition the camera when following, run the mouse-held callback, run
the host `update` callback.  No particle is updated. -/
def engineUpdate (f : σ → σ) (getX getY : σ → ℚ) (renderW renderH : ℚ)
    (wm hostUpd : EngineWorld σ → EngineWorld σ) (w : EngineWorld σ) :
    EngineWorld σ :=
  let w1 := { w with sprites := w.sprites.map f }
  let w2 :=
    match w1.toFollow with
    | none => w1
    | some i =>
      match w1.sprites.get? i with
      | none => w1
      | some sp =>
        { w1 with cameraX := round1 (getX sp - renderW / 2),
                  cameraY := round1 (getY sp - renderH / 2) }
  let w3 := if w2.isMouseDown && w2.hasMouseEvent then wm w2 else w2
  hostUpd w3

/-- The catch-up `while` loop of `Engine.startLoop` (lines 1662–1671):
`while (accumulatedTime >= minFrameTime && updates <
maxUpdatesPerFrame)`.  The fuel argument is the number of updates still
allowed this frame; returns the final world, the leftover accumulated
time, and the number of steps run. -/
def runSteps (step : EngineWorld σ → EngineWorld σ) (minFrameTime : ℚ) :
    ℕ → ℚ → EngineWorld σ → EngineWorld σ × ℚ × ℕ
  | 0, acc, w => (w, acc, 0)
  | Nat.succ fuel, acc, w =>
    if acc ≥ minFrameTime then
      let r := runSteps step minFrameTime fuel (acc - minFrameTime) (step w)
      (r.1, r.2.1, r.2.2 + 1)
    else (w, acc, 0)

/-- The frame-skip policy after the loop (lines 1673–1680). -/
def skipPolicy (enableFrameSkipping : Bool) (framesToSkip minFrameTime acc : ℚ) : ℚ :=
  if enableFrameSkipping && acc > minFrameTime * framesToSkip then 0
  else if acc > minFrameTime * 5 then minFrameTime * 5
  else acc

/-- One invocation of the frame driver `Engine.startLoop`, from the
accumulation of `deltaTime` through the catch-up loop and the
frame-skip policy; returns the final world, the final accumulated time
and the number of simulation steps run. -/
def engineFrame (step : EngineWorld σ → EngineWorld σ) (minFrameTime : ℚ)
    (maxUpdatesPerFrame : ℕ) (enableFrameSkipping : Bool) (framesToSkip : ℚ)
    (deltaTime acc : ℚ) (w : EngineWorld σ) : EngineWorld σ × ℚ × ℕ :=
  let acc1 := acc + deltaTime
  let r := runSteps step minFrameTime maxUpdatesPerFrame acc1 w
  (r.1, skipPolicy enableFrameSkipping framesToSkip minFrameTime r.2.1, r.2.2)

/-- A particle with nonzero `vx`: one `Particle.update` would move
it. -/
def cexParticle : Particle := ⟨0, 0, 5, 0, none, none⟩

/-- A world holding only `cexParticle`; the sprite type is `Unit`. -/
def cexWorld : EngineWorld Unit :=
  { sprites := [], particles := [cexParticle], cameraX := 0, cameraY := 0,
    toFollow := none, isMouseDown := false, hasMouseEvent := false }

/-- The engine step for `cexWorld` with trivial host hooks. -/
def cexStep : EngineWorld Unit → EngineWorld Unit :=
  engineUpdate id (fun _ => 0) (fun _ => 0) 100 100 id id

end Neutron

namespace Neutron

/-- C2: `touching(a,b)` is true iff all four strict inequalities hold;
two rectangles that exactly share an edge are not touching. -/
theorem touching_iff_strict :
    (∀ a b : Box, touching a b = true ↔
      (a.x < b.x + b.width ∧ a.x + a.width > b.x ∧
       a.y < b.y + b.height ∧ a.y + a.height > b.y)) ∧
    touching ⟨0, 0, 10, 10⟩ ⟨10, 0, 10, 10⟩ = false := by
  constructor
  · intro a b
    simp [touching, and_assoc]
  · norm_num [touching]

/-- The per-candidate body of `doGravity` agrees with the claim's
wording of it. -/
theorem doGravityStep_eq_claimStep (s : PlatSt) (p : Spr) :
    doGravityStep s p = doGravityClaimStep s p := by
  unfold doGravityStep doGravityClaimStep
  by_cases h1 : touching s.box p.box = true
  · by_cases h2 : s.key = p.key
    · simp [h1, h2]
    · simp [h1, h2, setY]
  · simp [h1]

/-- The `forEach` over candidates agrees with the claim's loop. -/
theorem foldl_doGravityStep_eq (l : List Spr) :
    ∀ s : PlatSt, l.foldl doGravityStep s = doGravityClaimLoop s l := by
  induction l with
  | nil => intro s; rfl
  | cons p ps ih =>
    intro s
    simp only [List.foldl_cons, doGravityStep_eq_claimStep, ih]
    rfl

/-- C1: `doGravity()` performs exactly the claimed steps in the claimed
order: refresh the candidate set when check-all mode is active, reset
`hasPlatformerBelow`, add `vy` to `y`, then for every candidate other
than self that is now touching self snap `y` according to the sign of
`vy` (marking `hasPlatformerBelow` on the downward branch), nudge `y`
by `0.1` if still touching, and zero `vy`; finally add `gravityAcc` to
`vy` only when `hasPlatformerBelow` is false (no re-zeroing of `vy`
when grounded). -/
theorem doGravity_spec_steps (self : PlatSt) (registry cache : List Spr) :
    doGravity self registry cache = doGravityClaim self registry cache := by
  simp only [doGravity, doGravityClaim, foldl_doGravityStep_eq, setY]
  set s := doGravityClaimLoop
    { self with hasPlatformerBelow := false, y := self.y + self.vy }
    (if self.checkAllPlatformers then registry.filter (fun p => p.isPlat) else cache) with hs
  cases h : s.hasPlatformerBelow <;> simp [h]

/-- C4 counterexample: with only a plain (non-`Platformer`) sprite
overlapping the one-unit-below probe, `doJump(18)` still fires — it
sets `vy` to `-18` although the probe returns no touching
`Platformer`, so "sets `vy` iff the probe returns at least one
touching Platformer" is false at this input. -/
theorem doJump_plain_sprite_cex :
    (doJump 18 jumpSelf jumpWorld).vy = -18 ∧ jumpSelf.vy = 0 ∧
    (getSpriteBelowSelf jumpSelf jumpWorld).filter (fun sp => sp.isPlat) = [] := by
  have hbelow : getSpriteBelowSelf jumpSelf jumpWorld =
      [⟨1, 0, 21 / 2, 10, 10, false⟩] := by
    simp only [getSpriteBelowSelf, jumpSelf, jumpWorld, touching, Spr.box,
      PlatSt.box, List.filter]
    norm_num
    simp
  refine ⟨?_, rfl, ?_⟩
  · rw [doJump, hbelow]
    norm_num [setVY, jumpSelf, round1]
  · rw [hbelow]
    simp

/-- C4 amended: `doJump(jumpHeight)` writes `-jumpHeight` through
`setVY` if and only if the one-unit-below ghost probe returns at least
one touching *sprite of any runtime class* (`getSpriteBelowSelf`
filters all live sprites, not only `Platformer`s); when the probe
returns nothing the call leaves the state unchanged. -/
theorem doJump_amended (jumpHeight : ℚ) (self : PlatSt) (registry : List Spr) :
    (getSpriteBelowSelf self registry ≠ [] →
      doJump jumpHeight self registry = setVY (-jumpHeight) self) ∧
    (getSpriteBelowSelf self registry = [] →
      doJump jumpHeight self registry = self) := by
  constructor
  · intro h
    have hl : 0 < (getSpriteBelowSelf self registry).length :=
      List.length_pos.mpr h
    simp [doJump, hl]
  · intro h
    simp [doJump, h]

/-- C4 witness: the amended theorem applied at concrete inputs — a
grounded platformer jumps, an airborne one is left unchanged. -/
theorem doJump_amended_witness :
    doJump 18 jumpSelf jumpWorld = setVY (-18) jumpSelf ∧
    doJump 18 jumpSelf jumpWorldAir = jumpSelf := by
  constructor
  · exact (doJump_amended 18 jumpSelf jumpWorld).1 (by
      simp only [getSpriteBelowSelf, jumpSelf, jumpWorld, touching, Spr.box,
        PlatSt.box, List.filter]
      norm_num
      simp)
  · exact (doJump_amended 18 jumpSelf jumpWorldAir).2 (by
      simp only [getSpriteBelowSelf, jumpSelf, jumpWorldAir, touching, Spr.box,
        PlatSt.box, List.filter]
      norm_num)

/-- C5 counterexample: the claim's reading of `addFrictionX` ("multiply
`vx` by `friction`, round to one decimal, snap to 0 only below 0.3")
predicts `vx = 9` for `vx = 10`, `maxVX = 5`, `friction = 0.9` — a state
reachable because `setMaxVX` does not retroactively clamp — but the code
stores the product through `setVX`, which also clamps at `maxVX`, giving
`vx = 5`. -/
theorem addFrictionX_maxVX_cex :
    (addFrictionX (9 / 10) fricState).vx = 5 ∧
    round1 (fricState.vx * (9 / 10)) = 9 ∧
    ¬ |(9 : ℚ)| < 3 / 10 ∧ (5 : ℚ) ≠ 9 := by
  refine ⟨?_, ?_, by norm_num, by norm_num⟩
  · norm_num [addFrictionX, fricState, setVX, round1, Int.floor_eq_iff]
  · norm_num [fricState, round1, Int.floor_eq_iff]

/-- C5 amended: `addFrictionX(friction)` writes `vx * friction` through
`setVX` — which rounds to one decimal place *and*, when `maxVX` is
non-null, clamps into `[-maxVX, maxVX]` — and then, if the stored
magnitude is below `0.3`, writes exactly `0` through `setVX`.  When
`maxVX` is null (the default) this is exactly the claimed
round-multiply-then-snap rule, and the concrete `vx = 0.25`,
`addFrictionX(0.9)` call yields exactly `0`. -/
theorem addFrictionX_amended :
    (∀ (s : PlatSt) (f : ℚ),
      addFrictionX f s =
        (if |(setVX (s.vx * f) s).vx| < 3 / 10 then setVX 0 (setVX (s.vx * f) s)
         else setVX (s.vx * f) s)) ∧
    (∀ (s : PlatSt) (f : ℚ), s.maxVX = none →
      (addFrictionX f s).vx =
        (if |round1 (s.vx * f)| < 3 / 10 then 0 else round1 (s.vx * f))) ∧
    (∀ s : PlatSt, s.maxVX = none → s.vx = 1 / 4 →
      (addFrictionX (9 / 10) s).vx = 0) := by
  have hr0 : round1 0 = 0 := by norm_num [round1]
  refine ⟨fun s f => rfl, fun s f h => ?_, fun s h hvx => ?_⟩
  · simp only [addFrictionX, setVX, h]
    split <;> simp [hr0]
  · have hr : round1 ((1 : ℚ) / 4 * (9 / 10)) = 1 / 5 := by
      norm_num [round1, Int.floor_eq_iff]
    simp only [addFrictionX, setVX, h, hvx, hr]
    rw [if_pos (abs_lt.mpr (by norm_num))]
    simp [hr0]

/-- C5 witness: the amended theorem applied at the claim's concrete
state (`vx = 0.25`, `maxVX` null): one `addFrictionX(0.9)` call leaves
`vx` at exactly 0; and the null-`maxVX` formula instantiated there. -/
theorem addFrictionX_amended_witness :
    (addFrictionX (9 / 10) fricSnapState).vx = 0 ∧
    (addFrictionX (9 / 10) fricSnapState).vx =
      (if |round1 (fricSnapState.vx * (9 / 10))| < 3 / 10 then 0
       else round1 (fricSnapState.vx * (9 / 10))) := by
  constructor
  · exact addFrictionX_amended.2.2 fricSnapState rfl rfl
  · exact addFrictionX_amended.2.1 fricSnapState (9 / 10) rfl

/-- Filtering one stage level through `orderedInsert`: the inserted
element lands in front of the equal-level elements only when the
skipped prefix is strictly below its level, so the filtered sequence
gains `a` at the front exactly when `a` has that level. -/
theorem filter_orderedInsert_level (l : ℚ) (a : SpriteRec) (L : List SpriteRec) :
    (List.orderedInsert stageLE a L).filter (fun s => s.stageLevel = l) =
      if a.stageLevel = l then a :: L.filter (fun s => s.stageLevel = l)
      else L.filter (fun s => s.stageLevel = l) := by
  induction L with
  | nil =>
    by_cases hal : a.stageLevel = l <;> simp [List.orderedInsert, hal]
  | cons b L ih =>
    by_cases hab : stageLE a b
    · rw [List.orderedInsert, if_pos hab]
      by_cases hal : a.stageLevel = l <;> simp [List.filter_cons, hal]
    · rw [List.orderedInsert, if_neg hab]
      have hlt : b.stageLevel < a.stageLevel := not_le.mp hab
      by_cases hal : a.stageLevel = l
      · have hbl : ¬ b.stageLevel = l := by
          rw [← hal]
          exact ne_of_lt hlt
        simp [List.filter_cons, hbl, ih, hal]
      · by_cases hbl : b.stageLevel = l <;>
          simp [List.filter_cons, hbl, ih, hal]

/-- Stability of `sortSprites`: within one stage level the sorted
sequence is the original subsequence, in its original order. -/
theorem filter_sortSprites_level (l : ℚ) (L : List SpriteRec) :
    (sortSprites L).filter (fun s => s.stageLevel = l) =
      L.filter (fun s => s.stageLevel = l) := by
  induction L with
  | nil => rfl
  | cons b L ih =>
    rw [sortSprites, List.insertionSort, filter_orderedInsert_level]
    rw [sortSprites] at ih
    by_cases hbl : b.stageLevel = l <;> simp [List.filter_cons, hbl, ih]

/-- C6: after any `addNewSprite` call the sprite sequence is sorted
ascending by `stageLevel`; equal stage levels keep their insertion
order (the filtered subsequence at each level equals the pre-sort
push sequence); inserting levels `[3,1,2]` into an empty registry
yields iteration order `[1,2,3]`; and re-adding an already-present
reference neither duplicates it nor changes the sequence's membership
(the result is a permutation of the registry).  The single-sprite and
array forms of `addNewSprite` agree. -/
theorem addNewSprite_sorted_stable :
    (∀ (ss reg : List SpriteRec), (addNewSprite ss reg).Sorted stageLE) ∧
    (∀ (ss reg : List SpriteRec) (l : ℚ),
      (addNewSprite ss reg).filter (fun s => s.stageLevel = l) =
        (ss.foldl pushNew reg).filter (fun s => s.stageLevel = l)) ∧
    ((addNewSprite
        [⟨0, "a", 3, SKind.sprite⟩, ⟨1, "b", 1, SKind.sprite⟩,
         ⟨2, "c", 2, SKind.sprite⟩] []).map (fun s => s.stageLevel) = [1, 2, 3]) ∧
    (∀ (s : SpriteRec) (reg : List SpriteRec), s ∈ reg →
      (addNewSpriteSingle s reg).Perm reg) ∧
    (∀ (s : SpriteRec) (reg : List SpriteRec),
      addNewSpriteSingle s reg = addNewSprite [s] reg) := by
  refine ⟨fun ss reg => ?_, fun ss reg l => ?_, ?_, fun s reg h => ?_, fun s reg => rfl⟩
  · exact List.sorted_insertionSort stageLE (ss.foldl pushNew reg)
  · exact filter_sortSprites_level l (ss.foldl pushNew reg)
  · simp only [addNewSprite, sortSprites, pushNew, List.foldl, List.insertionSort,
      List.orderedInsert, stageLE]
    norm_num
  · rw [addNewSpriteSingle, pushNew, if_pos h]
    exact List.perm_insertionSort stageLE reg

/-- C6 witness: re-adding the one registered sprite to a singleton
registry permutes (in fact preserves) it. -/
theorem addNewSprite_sorted_stable_witness :
    (addNewSpriteSingle ⟨0, "a", 3, SKind.sprite⟩
        [⟨0, "a", 3, SKind.sprite⟩]).Perm [⟨0, "a", 3, SKind.sprite⟩] :=
  addNewSprite_sorted_stable.2.2.2.1 _ _ (by simp)

/-- C7: `deleteSpritesByType` is inverted — evaluated at a registry
holding one `Platformer`-kind and one plain sprite, deleting by type
`Platformer` *keeps* the platformer and removes the plain sprite,
while the documented behavior (remove the matching kind, keep the
rest) yields the opposite. -/
theorem deleteSpritesByType_inverted :
    deleteSpritesByType SKind.platformer typedReg =
      [⟨0, "p", 0, SKind.platformer⟩] ∧
    deleteSpritesByTypeClaim SKind.platformer typedReg =
      [⟨1, "q", 0, SKind.sprite⟩] := by
  constructor <;> rfl

/-- C8 counterexample: `setTransparency(150)` succeeds and stores 150,
which lies outside `[0,100]` — there is no validation and the stored
value does not remain in range. -/
theorem setTransparency_no_validation_cex :
    (setTransparency 150 ⟨false, 0, 0, false⟩).transparency = 150 ∧
    ¬ ((150 : ℚ) ≤ 100) := ⟨rfl, by norm_num⟩

/-- C8 amended: `setTransparency` is a bare field write — it stores the
given value unconditionally (a total function: no error path), changes
no other field, and performs no range validation. -/
theorem setTransparency_amended (v : ℚ) (e : Effects) :
    (setTransparency v e).transparency = v ∧
    (setTransparency v e).hidden = e.hidden ∧
    (setTransparency v e).rotation = e.rotation ∧
    (setTransparency v e).isEclipse = e.isEclipse := ⟨rfl, rfl, rfl, rfl⟩

/-- `getSpriteById` finds something exactly when some registered sprite
carries the id. -/
theorem getSpriteById_isSome_iff (id : String) (reg : List SpriteRec) :
    (getSpriteById id reg).isSome = true ↔ ∃ s ∈ reg, s.id = id := by
  rw [getSpriteById]
  rcases hfl : reg.filter (fun s => s.id = id) with _ | ⟨a, as⟩
  · rw [hfl]
    simp only [List.head?_nil, Option.isSome_none]
    constructor
    · intro h
      cases h
    · rintro ⟨s, hs, hid⟩
      have hns := List.filter_eq_nil_iff.mp hfl s hs
      simp [hid] at hns
  · rw [hfl]
    simp only [List.head?_cons, Option.isSome_some]
    constructor
    · intro _
      have ha : a ∈ reg.filter (fun s => s.id = id) := by
        rw [hfl]
        exact List.mem_cons_self a as
      have hm := List.mem_filter.mp ha
      exact ⟨a, hm.1, by simpa using hm.2⟩
    · intro _
      trivial

/-- The `Sprite` constructor succeeds exactly when no currently
registered sprite carries the requested id. -/
theorem mkSprite_isOk_iff (key : ℕ) (id : String) (lvl : ℚ) (kind : SKind)
    (reg : List SpriteRec) :
    (mkSprite key id lvl kind reg).1.isOk = true ↔ ∀ s ∈ reg, s.id ≠ id := by
  rw [mkSprite]
  by_cases h : (getSpriteById id reg).isSome = true
  · rw [if_pos h]
    obtain ⟨s, hs, hid⟩ := (getSpriteById_isSome_iff id reg).mp h
    exact iff_of_false (by simp [Except.isOk, Except.toBool])
      (fun hall => hall s hs hid)
  · rw [if_neg h]
    exact iff_of_true rfl
      (fun s hs hid => h ((getSpriteById_isSome_iff id reg).mpr ⟨s, hs, hid⟩))

/-- `setId` succeeds exactly when no currently registered sprite
carries the requested id. -/
theorem setId_isOk_iff (newId : String) (s : SpriteRec) (reg : List SpriteRec) :
    (setId newId s reg).isOk = true ↔ ∀ t ∈ reg, t.id ≠ newId := by
  rw [setId]
  by_cases h : (getSpriteById newId reg).isSome = true
  · rw [if_pos h]
    obtain ⟨t, ht, hid⟩ := (getSpriteById_isSome_iff newId reg).mp h
    exact iff_of_false (by simp [Except.isOk, Except.toBool])
      (fun hall => hall t ht hid)
  · rw [if_neg h]
    exact iff_of_true rfl
      (fun t ht hid => h ((getSpriteById_isSome_iff newId reg).mpr ⟨t, ht, hid⟩))

/-- C9: constructing a `Sprite` whose id is currently registered throws
(and renaming through `setId` likewise), while constructing with the
same id after `deleteSpriteById` has removed the holder succeeds. -/
theorem sprite_id_conflict :
    (∀ (key : ℕ) (id : String) (lvl : ℚ) (kind : SKind) (reg : List SpriteRec),
      ((mkSprite key id lvl kind reg).1.isOk = true ↔ ∀ s ∈ reg, s.id ≠ id)) ∧
    (∀ (newId : String) (s : SpriteRec) (reg : List SpriteRec),
      ((setId newId s reg).isOk = true ↔ ∀ t ∈ reg, t.id ≠ newId)) ∧
    (∀ (key : ℕ) (id : String) (lvl : ℚ) (kind : SKind) (reg : List SpriteRec),
      (mkSprite key id lvl kind (deleteSpriteById id reg)).1.isOk = true) := by
  refine ⟨mkSprite_isOk_iff, setId_isOk_iff, fun key id lvl kind reg => ?_⟩
  refine (mkSprite_isOk_iff key id lvl kind _).mpr (fun s hs => ?_)
  have hm := List.mem_filter.mp hs
  simpa using hm.2

/-- C9 witness: with `"player"` registered, constructing (or renaming
to) `"player"` fails; after deleting it, construction succeeds. -/
theorem sprite_id_conflict_witness :
    (mkSprite 1 "player" 0 SKind.sprite [playerRec]).1.isOk = false ∧
    (setId "player" ⟨2, "enemy", 0, SKind.sprite⟩ [playerRec]).isOk = false ∧
    (mkSprite 1 "player" 0 SKind.sprite
        (deleteSpriteById "player" [playerRec])).1.isOk = true := by
  refine ⟨?_, ?_, sprite_id_conflict.2.2 1 "player" 0 SKind.sprite [playerRec]⟩
  · cases hk : (mkSprite 1 "player" 0 SKind.sprite [playerRec]).1.isOk
    · rfl
    · exact absurd rfl
        (((sprite_id_conflict.1 1 "player" 0 SKind.sprite [playerRec]).mp hk)
          playerRec (by simp))
  · cases hk : (setId "player" ⟨2, "enemy", 0, SKind.sprite⟩ [playerRec]).isOk
    · rfl
    · exact absurd rfl
        (((sprite_id_conflict.2.1 "player" ⟨2, "enemy", 0, SKind.sprite⟩
            [playerRec]).mp hk) playerRec (by simp))

/-- C10: the `Sprite` constructor leaves the registry untouched (it
only reads it for the duplicate-id check); on success the constructed
object is not live (`getSpriteById` still misses); and any number of
unregistered values with the same free id can be constructed in
sequence. -/
theorem sprite_construction_pure :
    (∀ (key : ℕ) (id : String) (lvl : ℚ) (kind : SKind) (reg : List SpriteRec),
      (mkSprite key id lvl kind reg).2 = reg) ∧
    (∀ (key : ℕ) (id : String) (lvl : ℚ) (kind : SKind) (reg : List SpriteRec),
      (mkSprite key id lvl kind reg).1.isOk = true → getSpriteById id reg = none) ∧
    (∀ (key : ℕ) (id : String) (lvl : ℚ) (kind : SKind) (reg : List SpriteRec),
      (∀ s ∈ reg, s.id ≠ id) → ∀ n, constructMany n key id lvl kind reg = true) := by
  refine ⟨fun key id lvl kind reg => ?_, fun key id lvl kind reg h => ?_,
    fun key id lvl kind reg h n => ?_⟩
  · rw [mkSprite]
    split <;> rfl
  · rw [mkSprite] at h
    by_cases hs : (getSpriteById id reg).isSome = true
    · rw [if_pos hs] at h
      simp [Except.isOk, Except.toBool] at h
    · exact Option.not_isSome_iff_eq_none.mp (by simpa using hs)
  · induction n with
    | zero => rfl
    | succ m ih =>
      have hns : ¬ (getSpriteById id reg).isSome = true := fun hs =>
        (fun ⟨s, hm, hid⟩ => h s hm hid) ((getSpriteById_isSome_iff id reg).mp hs)
      rw [constructMany, mkSprite, if_neg hns]
      exact ih

/-- C10 witness: on an empty registry the constructor returns the
registry unchanged, three successive constructions of `"player"` all
succeed, and on success the id is indeed absent from the registry. -/
theorem sprite_construction_pure_witness :
    (mkSprite 0 "player" 0 SKind.sprite []).2 = ([] : List SpriteRec) ∧
    constructMany 3 0 "player" 0 SKind.sprite [] = true ∧
    getSpriteById "player" ([] : List SpriteRec) = none := by
  refine ⟨sprite_construction_pure.1 0 "player" 0 SKind.sprite [],
    sprite_construction_pure.2.2 0 "player" 0 SKind.sprite [] (by simp) 3,
    sprite_construction_pure.2.1 0 "player" 0 SKind.sprite [] rfl⟩

/-- The catch-up loop runs at most `fuel` steps, consumes exactly
`minFrameTime` per executed step, and its final world is the step
function iterated that many times. -/
theorem runSteps_spec {σ : Type} (step : EngineWorld σ → EngineWorld σ) (mft : ℚ) :
    ∀ (fuel : ℕ) (acc : ℚ) (w : EngineWorld σ),
      (runSteps step mft fuel acc w).2.2 ≤ fuel ∧
      (runSteps step mft fuel acc w).2.1 =
        acc - ((runSteps step mft fuel acc w).2.2 : ℚ) * mft ∧
      (runSteps step mft fuel acc w).1 = step^[(runSteps step mft fuel acc w).2.2] w := by
  intro fuel
  induction fuel with
  | zero =>
    intro acc w
    refine ⟨le_refl 0, by simp [runSteps], by simp [runSteps]⟩
  | succ m ih =>
    intro acc w
    by_cases h : acc ≥ mft
    · have hr : runSteps step mft (m + 1) acc w =
          ((runSteps step mft m (acc - mft) (step w)).1,
           (runSteps step mft m (acc - mft) (step w)).2.1,
           (runSteps step mft m (acc - mft) (step w)).2.2 + 1) := by
        rw [runSteps, if_pos h]
      obtain ⟨ih1, ih2, ih3⟩ := ih (acc - mft) (step w)
      rw [hr]
      refine ⟨Nat.succ_le_succ ih1, ?_, ?_⟩
      · push_cast
        rw [ih2]
        ring
      · rw [ih3, Function.iterate_succ_apply]
    · have hr : runSteps step mft (m + 1) acc w = (w, acc, 0) := by
        rw [runSteps, if_neg h]
      rw [hr]
      exact ⟨Nat.zero_le _, by simp, rfl⟩

/-- When frame skipping fires (enabled and the leftover exceeds
`minFrameTime * framesToSkip`) the accumulated time is dropped to 0. -/
theorem skipPolicy_eq_zero (fts mft acc : ℚ) (h : acc > mft * fts) :
    skipPolicy true fts mft acc = 0 := by
  simp [skipPolicy, h]

/-- When frame skipping does not fire the leftover is capped at
`minFrameTime * 5`. -/
theorem skipPolicy_le (skip : Bool) (fts mft acc : ℚ)
    (h : ¬ (skip = true ∧ acc > mft * fts)) :
    skipPolicy skip fts mft acc ≤ mft * 5 := by
  rw [skipPolicy]
  have hc : (skip && decide (acc > mft * fts)) = false := by
    by_cases hs : skip = true
    · have hgt : ¬ acc > mft * fts := fun hgt => h ⟨hs, hgt⟩
      simp [hs, hgt]
    · simp only [Bool.not_eq_true] at hs
      simp [hs]
  rw [hc]
  simp only [Bool.false_eq_true, if_false]
  by_cases h5 : acc > mft * 5
  · rw [if_pos h5]
  · rw [if_neg h5]
    exact le_of_not_lt h5

/-- C3 (amended): one frame-driver invocation runs at most
`maxUpdatesPerFrame` simulation steps; each executed step consumes
exactly `minFrameTime` from the accumulated time; each step is, in
order, the sprite updates, the camera-follow repositioning, the
mouse-held callback, then the host `update` callback (no particle
updates occur); and the final accumulated time follows the frame-skip
policy — dropped to 0 when skipping fires, otherwise capped at
`5 * minFrameTime`. -/
theorem engineFrame_amended {σ : Type} (f : σ → σ) (getX getY : σ → ℚ)
    (renderW renderH : ℚ) (wm hostUpd : EngineWorld σ → EngineWorld σ)
    (mft : ℚ) (maxU : ℕ) (skip : Bool) (fts dt acc : ℚ) (w : EngineWorld σ)
    (step : EngineWorld σ → EngineWorld σ)
    (hstep : step = engineUpdate f getX getY renderW renderH wm hostUpd)
    (r : EngineWorld σ × ℚ × ℕ)
    (hr : r = engineFrame step mft maxU skip fts dt acc w)
    (leftover : ℚ)
    (hl : leftover = (runSteps step mft maxU (acc + dt) w).2.1) :
    r.2.2 ≤ maxU ∧
    leftover = acc + dt - (r.2.2 : ℚ) * mft ∧
    r.1 = (fun w0 => hostUpd (mousePhase wm
        (cameraFollowPhase getX getY renderW renderH (spritesPhase f w0))))^[r.2.2] w ∧
    r.2.1 = skipPolicy skip fts mft leftover ∧
    (skip = true → leftover > mft * fts → r.2.1 = 0) ∧
    (¬ (skip = true ∧ leftover > mft * fts) → r.2.1 ≤ mft * 5) := by
  have hphase : step = fun w0 => hostUpd (mousePhase wm
      (cameraFollowPhase getX getY renderW renderH (spritesPhase f w0))) := by
    rw [hstep]
    funext w0
    rfl
  obtain ⟨h1, h2, h3⟩ := runSteps_spec step mft maxU (acc + dt) w
  have hr1 : r.1 = (runSteps step mft maxU (acc + dt) w).1 := by rw [hr]; rfl
  have hr2 : r.2.1 = skipPolicy skip fts mft (runSteps step mft maxU (acc + dt) w).2.1 := by
    rw [hr]; rfl
  have hr3 : r.2.2 = (runSteps step mft maxU (acc + dt) w).2.2 := by rw [hr]; rfl
  refine ⟨hr3 ▸ h1, ?_, ?_, ?_, ?_, ?_⟩
  · rw [hl, hr3]
    exact h2
  · rw [hr1, hr3, ← hphase]
    exact h3
  · rw [hr2, hl]
  · intro hs hgt
    rw [hr2, ← hl, hs]
    exact skipPolicy_eq_zero fts mft leftover hgt
  · intro hn
    rw [hr2, ← hl]
    exact skipPolicy_le skip fts mft leftover hn

/-- One `cexStep` never touches the particle list or the follow
target. -/
theorem cexStep_particles (w : EngineWorld Unit) :
    (cexStep w).particles = w.particles ∧ (cexStep w).toFollow = w.toFollow := by
  rw [cexStep, engineUpdate]
  refine ⟨?_, ?_⟩ <;>
  · simp only [id_eq]
    repeat' split
    all_goals simp

/-- Any number of `cexStep`s leaves the particle list unchanged. -/
theorem runSteps_cex_particles :
    ∀ (fuel : ℕ) (acc : ℚ) (w : EngineWorld Unit),
      (runSteps cexStep 10 fuel acc w).1.particles = w.particles := by
  intro fuel
  induction fuel with
  | zero => intro acc w; rfl
  | succ m ih =>
    intro acc w
    by_cases h : acc ≥ (10 : ℚ)
    · have hr : (runSteps cexStep 10 (m + 1) acc w).1 =
          (runSteps cexStep 10 m (acc - 10) (cexStep w)).1 := by
        rw [runSteps, if_pos h]
      rw [hr, ih (acc - 10) (cexStep w), (cexStep_particles w).1]
    · have hr : runSteps cexStep 10 (m + 1) acc w = (w, acc, 0) := by
        rw [runSteps, if_neg h]
      rw [hr]

/-- C3 counterexample: a frame that runs a simulation step leaves a
moving particle (`vx = 5`) exactly where it was — the engine step
updates sprites, camera, mouse and host callbacks but never particles,
although one `Particle.update` would move it. -/
theorem engineStep_skips_particles_cex :
    (engineFrame cexStep 10 5 true 1 10 0 cexWorld).1.particles = [cexParticle] ∧
    particleUpdate cexParticle ≠ cexParticle := by
  constructor
  · have h : (engineFrame cexStep 10 5 true 1 10 0 cexWorld).1 =
        (runSteps cexStep 10 5 (0 + 10) cexWorld).1 := rfl
    rw [h, runSteps_cex_particles 5 (0 + 10) cexWorld]
    rfl
  · intro h
    have hx := congrArg Particle.x h
    norm_num [particleUpdate, cexParticle] at hx

/-- C3 witness: the amended frame theorem instantiated at the concrete
counterexample world (step function with trivial host hooks,
`minFrameTime = 10`, `maxUpdatesPerFrame = 5`, skipping enabled,
`framesToSkip = 1`, `deltaTime = 10`). -/
theorem engineFrame_amended_witness :
    (engineFrame cexStep 10 5 true 1 10 0 cexWorld).2.2 ≤ 5 ∧
    (runSteps cexStep 10 5 (0 + 10) cexWorld).2.1 =
      0 + 10 - ((engineFrame cexStep 10 5 true 1 10 0 cexWorld).2.2 : ℚ) * 10 ∧
    (engineFrame cexStep 10 5 true 1 10 0 cexWorld).1 =
      (fun w0 => id (mousePhase id (cameraFollowPhase (fun _ => (0 : ℚ))
          (fun _ => (0 : ℚ)) 100 100 (spritesPhase id w0))))^[
        (engineFrame cexStep 10 5 true 1 10 0 cexWorld).2.2] cexWorld ∧
    (engineFrame cexStep 10 5 true 1 10 0 cexWorld).2.1 =
      skipPolicy true 1 10 ((runSteps cexStep 10 5 (0 + 10) cexWorld).2.1) ∧
    (true = true → (runSteps cexStep 10 5 (0 + 10) cexWorld).2.1 > 10 * 1 →
      (engineFrame cexStep 10 5 true 1 10 0 cexWorld).2.1 = 0) ∧
    (¬ (true = true ∧ (runSteps cexStep 10 5 (0 + 10) cexWorld).2.1 > 10 * 1) →
      (engineFrame cexStep 10 5 true 1 10 0 cexWorld).2.1 ≤ 10 * 5) :=
  engineFrame_amended id (fun _ => 0) (fun _ => 0) 100 100 id id 10 5 true 1 10 0
    cexWorld cexStep rfl _ rfl _ rfl

end Neutron
